import Mathlib

/-!
Verification of the `jwtgo` HTTP authentication boundary.

Shallow embedding of the Go sources:
  * `internal/app/controller/http/dto/user.go` — the DTO shapes;
  * `pkg/request/response.go` — `SetCookies`, the cookie-directive to
    HTTP-cookie mapping;
  * the auth controller (`AuthController.SignUp / SignIn / Refresh`).

Time is modelled as `Nat` (seconds); the injected `AuthService` capability
is modelled as a record of deterministic functions taking the deadline
context explicitly, so that "the capability is never invoked" and "the
capability receives exactly this context / this envelope" become
independence statements over arbitrary capabilities.
-/

namespace Jwtgo

/-- Shape `dto.UserCredentialsDTO`: email and password fields of the
credential envelope. -/
structure UserCredentialsDTO where
  email : String
  password : String
deriving DecidableEq, Repr

/-- Shape `dto.UserTokensDTO`: the token pair returned by the capability. -/
structure UserTokensDTO where
  accessToken : String
  refreshToken : String
deriving DecidableEq, Repr

/-- Shape `dto.UserRefreshTokenDTO`: the refresh-token envelope. -/
structure UserRefreshTokenDTO where
  refreshToken : String
deriving DecidableEq, Repr

/-- Go's `time.Second` expressed in our time unit (seconds). -/
def second : Nat := 1

/-- Go's `time.Hour` in seconds. -/
def hour : Nat := 3600

/-- Shape `schema.Cookie` as used by `SetCookies`: a cookie directive with a
name, a value and a duration (seconds). -/
structure Cookie where
  name : String
  value : String
  duration : Nat
deriving DecidableEq, Repr

/-- The `http.SameSite` enumeration values used by the code. -/
inductive SameSite where
  | defaultMode
  | laxMode
  | strictMode
  | noneMode
deriving DecidableEq, Repr

/-- Shape `http.Cookie` restricted to the attributes `SetCookies` sets. -/
structure HttpCookie where
  name : String
  value : String
  path : String
  domain : String
  expires : Nat
  httpOnly : Bool
  secure : Bool
  sameSite : SameSite
deriving DecidableEq, Repr

/-- Embedding of `request.SetCookies` (`pkg/request/response.go`): each
directive becomes an HTTP cookie with path `/`, empty domain, expiry
`now + duration`, http-only, secure, same-site strict. `now` stands for
`time.Now().UTC()` at emission time. -/
def SetCookies (now : Nat) (cookies : List Cookie) : List HttpCookie :=
  cookies.map fun cookieData =>
    { name := cookieData.name
      value := cookieData.value
      path := "/"
      domain := ""
      expires := now + cookieData.duration
      httpOnly := true
      secure := true
      sameSite := SameSite.strictMode }

/-- The closed taxonomy of named failure kinds from `internal/app/error`
(`AlreadyExistsError`, `InvalidCredentialsError`, `InvalidTokenError`,
`ExpiredTokenError`, `UserNotFoundError`), with `other` for every
unclassified error (this is what the controller's `errors.As` chain
distinguishes). -/
inductive ErrKind where
  | alreadyExists
  | invalidCredentials
  | invalidToken
  | expiredToken
  | userNotFound
  | other
deriving DecidableEq, Repr

/-- A Go error as the controller observes it: the kind matched by
`errors.As`, and the text returned by `err.Error()`. -/
structure Err where
  kind : ErrKind
  msg : String
deriving DecidableEq, Repr

/-- Go's `context.DeadlineExceeded` error: not one of the named custom
error types, so `errors.As` classifies it as unmatched. -/
def deadlineExceeded : Err :=
  { kind := ErrKind.other, msg := "context deadline exceeded" }

/-- A deadline context as built by `context.WithTimeout`: the timeout in
seconds. -/
structure Ctx where
  timeout : Nat
deriving DecidableEq, Repr

/-- The injected `AuthService` capability: each operation takes the
deadline context and its envelope and returns either a value or an error.
`signUp` returns an account reference (discarded by the controller). -/
structure AuthService where
  signUp : Ctx → UserCredentialsDTO → Except Err String
  signIn : Ctx → UserCredentialsDTO → Except Err UserTokensDTO
  refresh : Ctx → UserRefreshTokenDTO → Except Err UserTokensDTO

/-- One field of a `gin.H` JSON body. -/
structure JsonField where
  key : String
  value : String
deriving DecidableEq, Repr

/-- An HTTP response as the handlers build it: status code, JSON body
fields, and the Set-Cookie headers emitted. -/
structure Response where
  status : Nat
  body : List JsonField
  cookies : List HttpCookie
deriving DecidableEq, Repr

/-- Timeout constant used by all three handlers: `100 * time.Second`. -/
def contextTimeout : Nat := 100 * second

/-- Modelled from the spec: `mapper.MapToUserRefreshTokenDTO`
(`internal/app/controller/http/mapper`, not present under `src/`) wraps the
string read from the cookie into the Refresh Token Envelope the Session
Protocol expects, unchanged ("extracted from a transport-level cookie …
then wrapped into the same shape the Session Protocol expects"). -/
def MapToUserRefreshTokenDTO (refreshToken : String) : UserRefreshTokenDTO :=
  { refreshToken := refreshToken }

namespace AuthController

/-- Embedding of `AuthController.SignUp`: build a 100-second deadline
context, call the capability, discard the account reference; classify
`AlreadyExistsError` as 409, any other error as 500 (body = `err.Error()`),
success as 200 with a fixed message. No cookies on any path. -/
def SignUp (ac : AuthService) (userCredentialsDTO : UserCredentialsDTO) :
    Response :=
  let ctx : Ctx := { timeout := contextTimeout }
  match ac.signUp ctx userCredentialsDTO with
  | Except.error err =>
      match err.kind with
      | ErrKind.alreadyExists =>
          { status := 409, body := [⟨"message", err.msg⟩], cookies := [] }
      | _ =>
          { status := 500, body := [⟨"message", err.msg⟩], cookies := [] }
  | Except.ok _ =>
      { status := 200
        body := [⟨"message", "User successfully registered"⟩]
        cookies := [] }

/-- Embedding of `AuthController.SignIn`: build a 100-second deadline
context, call the capability; classify `InvalidCredentialsError` as 401,
any other error as 500 (body = `err.Error()`); on success emit the two
token cookies (7×24 hours each) and a 200 with a fixed message. `now` is
the cookie-emission time. -/
def SignIn (ac : AuthService) (userCredentialsDTO : UserCredentialsDTO)
    (now : Nat) : Response :=
  let ctx : Ctx := { timeout := contextTimeout }
  match ac.signIn ctx userCredentialsDTO with
  | Except.error err =>
      match err.kind with
      | ErrKind.invalidCredentials =>
          { status := 401, body := [⟨"message", err.msg⟩], cookies := [] }
      | _ =>
          { status := 500, body := [⟨"message", err.msg⟩], cookies := [] }
  | Except.ok userTokensDTO =>
      { status := 200
        body := [⟨"message", "Logged in successfully"⟩]
        cookies := SetCookies now
          [ { name := "access_token", value := userTokensDTO.accessToken
              duration := 7 * 24 * hour }
          , { name := "refresh_token", value := userTokensDTO.refreshToken
              duration := 7 * 24 * hour } ] }

/-- Embedding of `AuthController.Refresh`: build a 100-second deadline
context; if the `refresh_token` cookie is absent or unreadable
(`c.Cookie` returned an error, modelled as `none`) answer 401 with body
`{"error": "Invalid refresh token"}` without touching the capability;
otherwise wrap the cookie value and call the capability; classify
`InvalidTokenError` / `ExpiredTokenError` / `UserNotFoundError` as 401,
any other error as 500 (body = `err.Error()`); on success emit the two
token cookies and a 200 with a fixed message. -/
def Refresh (ac : AuthService) (cookie : Option String) (now : Nat) :
    Response :=
  let ctx : Ctx := { timeout := contextTimeout }
  match cookie with
  | none =>
      { status := 401
        body := [⟨"error", "Invalid refresh token"⟩]
        cookies := [] }
  | some refreshToken =>
      let refreshTokenDTO := MapToUserRefreshTokenDTO refreshToken
      match ac.refresh ctx refreshTokenDTO with
      | Except.error err =>
          match err.kind with
          | ErrKind.invalidToken =>
              { status := 401, body := [⟨"message", err.msg⟩], cookies := [] }
          | ErrKind.expiredToken =>
              { status := 401, body := [⟨"message", err.msg⟩], cookies := [] }
          | ErrKind.userNotFound =>
              { status := 401, body := [⟨"message", err.msg⟩], cookies := [] }
          | _ =>
              { status := 500, body := [⟨"message", err.msg⟩], cookies := [] }
      | Except.ok userTokensDTO =>
          { status := 200
            body := [⟨"message", "Tokens updated successfully"⟩]
            cookies := SetCookies now
              [ { name := "access_token", value := userTokensDTO.accessToken
                  duration := 7 * 24 * hour }
              , { name := "refresh_token"
                  value := userTokensDTO.refreshToken
                  duration := 7 * 24 * hour } ] }

end AuthController

/-- A capability that succeeds on every operation, for concrete runs. -/
def svcOkTokens : AuthService :=
  { signUp := fun _ _ => Except.ok "user-1"
    signIn := fun _ _ => Except.ok { accessToken := "acc1", refreshToken := "ref1" }
    refresh := fun _ _ => Except.ok { accessToken := "acc2", refreshToken := "ref2" } }

/-- A capability that fails every operation with the given error, for
concrete runs. -/
def svcErr (e : Err) : AuthService :=
  { signUp := fun _ _ => Except.error e
    signIn := fun _ _ => Except.error e
    refresh := fun _ _ => Except.error e }

/-- C1: every token pair produced by a successful SignIn or Refresh is
transported as exactly two cookies, `access_token` first and
`refresh_token` second, both expiring `7 * 24` hours after emission, with
path `/`, empty domain, http-only, secure, same-site strict; SignUp never
sets cookies, and SignIn/Refresh set either no cookie or exactly that
pair — never a partial pair. -/
theorem C1_token_pair_two_cookies :
    (∀ (ac : AuthService) (creds : UserCredentialsDTO) (now : Nat)
        (tp : UserTokensDTO),
      ac.signIn ⟨contextTimeout⟩ creds = Except.ok tp →
      (AuthController.SignIn ac creds now).cookies =
        [ { name := "access_token", value := tp.accessToken, path := "/"
            domain := "", expires := now + 7 * 24 * hour, httpOnly := true
            secure := true, sameSite := SameSite.strictMode }
        , { name := "refresh_token", value := tp.refreshToken, path := "/"
            domain := "", expires := now + 7 * 24 * hour, httpOnly := true
            secure := true, sameSite := SameSite.strictMode } ]) ∧
    (∀ (ac : AuthService) (tok : String) (now : Nat) (tp : UserTokensDTO),
      ac.refresh ⟨contextTimeout⟩ (MapToUserRefreshTokenDTO tok) =
        Except.ok tp →
      (AuthController.Refresh ac (some tok) now).cookies =
        [ { name := "access_token", value := tp.accessToken, path := "/"
            domain := "", expires := now + 7 * 24 * hour, httpOnly := true
            secure := true, sameSite := SameSite.strictMode }
        , { name := "refresh_token", value := tp.refreshToken, path := "/"
            domain := "", expires := now + 7 * 24 * hour, httpOnly := true
            secure := true, sameSite := SameSite.strictMode } ]) ∧
    (∀ (ac : AuthService) (creds : UserCredentialsDTO),
      (AuthController.SignUp ac creds).cookies = []) ∧
    (∀ (ac : AuthService) (creds : UserCredentialsDTO) (now : Nat),
      (AuthController.SignIn ac creds now).cookies = [] ∨
      (AuthController.SignIn ac creds now).cookies.map HttpCookie.name =
        ["access_token", "refresh_token"]) ∧
    (∀ (ac : AuthService) (cookie : Option String) (now : Nat),
      (AuthController.Refresh ac cookie now).cookies = [] ∨
      (AuthController.Refresh ac cookie now).cookies.map HttpCookie.name =
        ["access_token", "refresh_token"]) := by
  refine ⟨?_, ?_, ?_, ?_, ?_⟩
  · intro ac creds now tp h
    simp [AuthController.SignIn, h, SetCookies]
  · intro ac tok now tp h
    simp [AuthController.Refresh, h, SetCookies]
  · intro ac creds
    unfold AuthController.SignUp
    cases h : ac.signUp ⟨contextTimeout⟩ creds with
    | error e => obtain ⟨k, m⟩ := e; cases k <;> simp [h]
    | ok r => simp [h]
  · intro ac creds now
    unfold AuthController.SignIn
    cases h : ac.signIn ⟨contextTimeout⟩ creds with
    | error e => obtain ⟨k, m⟩ := e; cases k <;> simp [h]
    | ok tp => right; simp [h, SetCookies]
  · intro ac cookie now
    unfold AuthController.Refresh
    cases cookie with
    | none => simp
    | some tok =>
      cases h : ac.refresh ⟨contextTimeout⟩ (MapToUserRefreshTokenDTO tok) with
      | error e => obtain ⟨k, m⟩ := e; cases k <;> simp [h]
      | ok tp => right; simp [h, SetCookies]

/-- C1 witness: concrete run of the first two conjuncts on a service that
returns a fixed token pair. -/
theorem C1_token_pair_two_cookies_witness :
    (AuthController.SignIn svcOkTokens ⟨"a@b.com", "secret1"⟩ 5).cookies =
      [ { name := "access_token", value := "acc1", path := "/"
          domain := "", expires := 5 + 7 * 24 * hour, httpOnly := true
          secure := true, sameSite := SameSite.strictMode }
      , { name := "refresh_token", value := "ref1", path := "/"
          domain := "", expires := 5 + 7 * 24 * hour, httpOnly := true
          secure := true, sameSite := SameSite.strictMode } ] ∧
    (AuthController.Refresh svcOkTokens (some "tok") 5).cookies =
      [ { name := "access_token", value := "acc2", path := "/"
          domain := "", expires := 5 + 7 * 24 * hour, httpOnly := true
          secure := true, sameSite := SameSite.strictMode }
      , { name := "refresh_token", value := "ref2", path := "/"
          domain := "", expires := 5 + 7 * 24 * hour, httpOnly := true
          secure := true, sameSite := SameSite.strictMode } ] :=
  ⟨C1_token_pair_two_cookies.1 svcOkTokens ⟨"a@b.com", "secret1"⟩ 5
      ⟨"acc1", "ref1"⟩ rfl,
   C1_token_pair_two_cookies.2.1 svcOkTokens "tok" 5 ⟨"acc2", "ref2"⟩ rfl⟩

/-- C2: on a Refresh request whose `refresh_token` cookie is absent or
unreadable, the handler answers 401 and the response is entirely
independent of the injected capability (the capability is never invoked). -/
theorem C2_missing_cookie_short_circuit :
    (∀ (ac : AuthService) (now : Nat),
      (AuthController.Refresh ac none now).status = 401) ∧
    (∀ (ac ac' : AuthService) (now now' : Nat),
      AuthController.Refresh ac none now =
        AuthController.Refresh ac' none now') := by
  exact ⟨fun ac now => rfl, fun ac ac' now now' => rfl⟩

/-- C3 counterexample: two Refresh failures of different named kinds
(`InvalidToken` with message "token is invalid", `ExpiredToken` with
message "token is expired") both yield status 401, yet the two responses
differ — the body carries each error's own message — so they are not
indistinguishable to the caller, contrary to the claim. -/
theorem C3_counterexample_distinguishable :
    (AuthController.Refresh (svcErr ⟨ErrKind.invalidToken, "token is invalid"⟩)
        (some "t") 0).status = 401 ∧
    (AuthController.Refresh (svcErr ⟨ErrKind.expiredToken, "token is expired"⟩)
        (some "t") 0).status = 401 ∧
    AuthController.Refresh (svcErr ⟨ErrKind.invalidToken, "token is invalid"⟩)
        (some "t") 0 ≠
      AuthController.Refresh (svcErr ⟨ErrKind.expiredToken, "token is expired"⟩)
        (some "t") 0 := by
  refine ⟨rfl, rfl, ?_⟩
  decide

/-- C3 amended: when the Refresh capability fails with `InvalidToken`,
`ExpiredToken` or `UserNotFound`, the response is 401 with no cookies and
body `{"message": err.Error()}` — the status is uniform across the three
kinds, but the body carries the error's own message text, so responses may
differ across kinds; any other failure yields 500 with the same body
shape. -/
theorem C3_refresh_failure_classification :
    ∀ (ac : AuthService) (tok : String) (now : Nat) (e : Err),
      ac.refresh ⟨contextTimeout⟩ (MapToUserRefreshTokenDTO tok) =
        Except.error e →
      ((e.kind = ErrKind.invalidToken ∨ e.kind = ErrKind.expiredToken ∨
          e.kind = ErrKind.userNotFound) →
        AuthController.Refresh ac (some tok) now =
          { status := 401, body := [⟨"message", e.msg⟩], cookies := [] }) ∧
      (e.kind ≠ ErrKind.invalidToken → e.kind ≠ ErrKind.expiredToken →
        e.kind ≠ ErrKind.userNotFound →
        AuthController.Refresh ac (some tok) now =
          { status := 500, body := [⟨"message", e.msg⟩], cookies := [] }) := by
  intro ac tok now e h
  obtain ⟨k, m⟩ := e
  constructor
  · intro hk
    cases k <;> simp_all [AuthController.Refresh, h]
  · intro h1 h2 h3
    cases k <;> simp_all [AuthController.Refresh, h]

/-- C3 witness: concrete run of the amended classification on a
`UserNotFound` failure. -/
theorem C3_refresh_failure_classification_witness :
    AuthController.Refresh (svcErr ⟨ErrKind.userNotFound, "user not found"⟩)
        (some "t") 0 =
      { status := 401, body := [⟨"message", "user not found"⟩]
        cookies := [] } :=
  (C3_refresh_failure_classification
      (svcErr ⟨ErrKind.userNotFound, "user not found"⟩) "t" 0
      ⟨ErrKind.userNotFound, "user not found"⟩ rfl).1
    (Or.inr (Or.inr rfl))

/-- C4 counterexample: two SignUp runs failing with different unclassified
internal errors both answer 500, but the caller-visible bodies differ —
the body holds `err.Error()`, not a generic message independent of the
underlying error. -/
theorem C4_counterexample_body_depends_on_error :
    (AuthController.SignUp (svcErr ⟨ErrKind.other, "db down"⟩)
        ⟨"a@b.com", "secret1"⟩).status = 500 ∧
    (AuthController.SignUp (svcErr ⟨ErrKind.other, "hash failure"⟩)
        ⟨"a@b.com", "secret1"⟩).status = 500 ∧
    (AuthController.SignUp (svcErr ⟨ErrKind.other, "db down"⟩)
        ⟨"a@b.com", "secret1"⟩).body ≠
      (AuthController.SignUp (svcErr ⟨ErrKind.other, "hash failure"⟩)
        ⟨"a@b.com", "secret1"⟩).body := by
  refine ⟨rfl, rfl, ?_⟩
  decide

/-- C4 amended: every unclassified failure (kind matching no named error
type) yields status 500 with no cookies; the caller-visible body is the
single field `message` holding the error's own `err.Error()` text — so the
body does depend on the underlying error's message, though nothing beyond
that message is surfaced. -/
theorem C4_internal_error_body :
    ∀ (e : Err), e.kind = ErrKind.other →
      (∀ (ac : AuthService) (creds : UserCredentialsDTO),
        ac.signUp ⟨contextTimeout⟩ creds = Except.error e →
        AuthController.SignUp ac creds =
          { status := 500, body := [⟨"message", e.msg⟩], cookies := [] }) ∧
      (∀ (ac : AuthService) (creds : UserCredentialsDTO) (now : Nat),
        ac.signIn ⟨contextTimeout⟩ creds = Except.error e →
        AuthController.SignIn ac creds now =
          { status := 500, body := [⟨"message", e.msg⟩], cookies := [] }) ∧
      (∀ (ac : AuthService) (tok : String) (now : Nat),
        ac.refresh ⟨contextTimeout⟩ (MapToUserRefreshTokenDTO tok) =
          Except.error e →
        AuthController.Refresh ac (some tok) now =
          { status := 500, body := [⟨"message", e.msg⟩], cookies := [] }) := by
  intro e hk
  obtain ⟨k, m⟩ := e
  subst hk
  refine ⟨?_, ?_, ?_⟩
  · intro ac creds h
    simp [AuthController.SignUp, h]
  · intro ac creds now h
    simp [AuthController.SignIn, h]
  · intro ac tok now h
    simp [AuthController.Refresh, h]

/-- C4 witness: concrete run of the amended statement on an unclassified
failure of each operation. -/
theorem C4_internal_error_body_witness :
    AuthController.SignUp (svcErr ⟨ErrKind.other, "db down"⟩)
        ⟨"a@b.com", "secret1"⟩ =
      { status := 500, body := [⟨"message", "db down"⟩], cookies := [] } :=
  (C4_internal_error_body ⟨ErrKind.other, "db down"⟩ rfl).1
    (svcErr ⟨ErrKind.other, "db down"⟩) ⟨"a@b.com", "secret1"⟩ rfl

/-- C5: SignUp answers 200 with the fixed registration message and no
cookies on success, 409 (with the error's message) when the capability
fails with `AlreadyExists`, and 500 on any other failure. -/
theorem C5_signup_classification :
    ∀ (ac : AuthService) (creds : UserCredentialsDTO),
      (∀ ref, ac.signUp ⟨contextTimeout⟩ creds = Except.ok ref →
        AuthController.SignUp ac creds =
          { status := 200
            body := [⟨"message", "User successfully registered"⟩]
            cookies := [] }) ∧
      (∀ e, ac.signUp ⟨contextTimeout⟩ creds = Except.error e →
        (e.kind = ErrKind.alreadyExists →
          AuthController.SignUp ac creds =
            { status := 409, body := [⟨"message", e.msg⟩], cookies := [] }) ∧
        (e.kind ≠ ErrKind.alreadyExists →
          AuthController.SignUp ac creds =
            { status := 500, body := [⟨"message", e.msg⟩], cookies := [] })) := by
  intro ac creds
  constructor
  · intro ref h
    simp [AuthController.SignUp, h]
  · intro e h
    obtain ⟨k, m⟩ := e
    constructor
    · intro hk
      cases k <;> simp_all [AuthController.SignUp, h]
    · intro hk
      cases k <;> simp_all [AuthController.SignUp, h]

/-- C5 witness: concrete runs of the success and `AlreadyExists` branches. -/
theorem C5_signup_classification_witness :
    AuthController.SignUp svcOkTokens ⟨"a@b.com", "secret1"⟩ =
      { status := 200
        body := [⟨"message", "User successfully registered"⟩]
        cookies := [] } ∧
    AuthController.SignUp (svcErr ⟨ErrKind.alreadyExists, "email taken"⟩)
        ⟨"a@b.com", "secret1"⟩ =
      { status := 409, body := [⟨"message", "email taken"⟩], cookies := [] } :=
  ⟨(C5_signup_classification svcOkTokens ⟨"a@b.com", "secret1"⟩).1
      "user-1" rfl,
   ((C5_signup_classification (svcErr ⟨ErrKind.alreadyExists, "email taken"⟩)
        ⟨"a@b.com", "secret1"⟩).2
      ⟨ErrKind.alreadyExists, "email taken"⟩ rfl).1 rfl⟩

/-- C6: SignIn answers 401 with no cookies when the capability fails with
`InvalidCredentials`, 500 with no cookies on any other failure, and only
on success answers 200 with the two token cookies. -/
theorem C6_signin_classification :
    ∀ (ac : AuthService) (creds : UserCredentialsDTO) (now : Nat),
      (∀ e, ac.signIn ⟨contextTimeout⟩ creds = Except.error e →
        (e.kind = ErrKind.invalidCredentials →
          AuthController.SignIn ac creds now =
            { status := 401, body := [⟨"message", e.msg⟩], cookies := [] }) ∧
        (e.kind ≠ ErrKind.invalidCredentials →
          AuthController.SignIn ac creds now =
            { status := 500, body := [⟨"message", e.msg⟩], cookies := [] })) ∧
      (∀ tp, ac.signIn ⟨contextTimeout⟩ creds = Except.ok tp →
        (AuthController.SignIn ac creds now).status = 200 ∧
        (AuthController.SignIn ac creds now).cookies.map HttpCookie.name =
          ["access_token", "refresh_token"]) := by
  intro ac creds now
  constructor
  · intro e h
    obtain ⟨k, m⟩ := e
    constructor
    · intro hk
      cases k <;> simp_all [AuthController.SignIn, h]
    · intro hk
      cases k <;> simp_all [AuthController.SignIn, h]
  · intro tp h
    simp [AuthController.SignIn, h, SetCookies]

/-- C6 witness: concrete run of the `InvalidCredentials` branch. -/
theorem C6_signin_classification_witness :
    AuthController.SignIn
        (svcErr ⟨ErrKind.invalidCredentials, "invalid credentials"⟩)
        ⟨"a@b.com", "wrong"⟩ 0 =
      { status := 401, body := [⟨"message", "invalid credentials"⟩]
        cookies := [] } :=
  ((C6_signin_classification
        (svcErr ⟨ErrKind.invalidCredentials, "invalid credentials"⟩)
        ⟨"a@b.com", "wrong"⟩ 0).1
      ⟨ErrKind.invalidCredentials, "invalid credentials"⟩ rfl).1 rfl

/-- C7: on every successful SignUp the response is exactly 200 with body
`{"message": "User successfully registered"}` and no cookies, and the
account reference returned by the capability is discarded: two capabilities
that both succeed on the same credentials — with any references — produce
identical responses. -/
theorem C7_register_returns_no_token :
    (∀ (ac : AuthService) (creds : UserCredentialsDTO) (ref : String),
      ac.signUp ⟨contextTimeout⟩ creds = Except.ok ref →
      AuthController.SignUp ac creds =
        { status := 200
          body := [⟨"message", "User successfully registered"⟩]
          cookies := [] }) ∧
    (∀ (ac ac' : AuthService) (creds : UserCredentialsDTO)
        (ref ref' : String),
      ac.signUp ⟨contextTimeout⟩ creds = Except.ok ref →
      ac'.signUp ⟨contextTimeout⟩ creds = Except.ok ref' →
      AuthController.SignUp ac creds = AuthController.SignUp ac' creds) := by
  constructor
  · intro ac creds ref h
    simp [AuthController.SignUp, h]
  · intro ac ac' creds ref ref' h h'
    simp [AuthController.SignUp, h, h']

/-- C7 witness: concrete successful registration. -/
theorem C7_register_returns_no_token_witness :
    AuthController.SignUp svcOkTokens ⟨"a@b.com", "secret1"⟩ =
      { status := 200
        body := [⟨"message", "User successfully registered"⟩]
        cookies := [] } :=
  C7_register_returns_no_token.1 svcOkTokens ⟨"a@b.com", "secret1"⟩
    "user-1" rfl

/-- C8: the deadline constant is exactly 100 time-units (`100 *
time.Second`); each handler depends on the capability only through its
behaviour at that deadline context (the context is built at call start and
passed to the capability); and when the capability returns the cancellation
error `context.DeadlineExceeded` — which matches no named kind — each
operation answers 500 with no cookies, so no partial token pair is ever
returned on cancellation. -/
theorem C8_deadline_budget :
    contextTimeout = 100 * second ∧
    (∀ (ac ac' : AuthService),
      ac.signUp ⟨contextTimeout⟩ = ac'.signUp ⟨contextTimeout⟩ →
      ∀ creds, AuthController.SignUp ac creds =
        AuthController.SignUp ac' creds) ∧
    (∀ (ac ac' : AuthService),
      ac.signIn ⟨contextTimeout⟩ = ac'.signIn ⟨contextTimeout⟩ →
      ∀ creds now, AuthController.SignIn ac creds now =
        AuthController.SignIn ac' creds now) ∧
    (∀ (ac ac' : AuthService),
      ac.refresh ⟨contextTimeout⟩ = ac'.refresh ⟨contextTimeout⟩ →
      ∀ cookie now, AuthController.Refresh ac cookie now =
        AuthController.Refresh ac' cookie now) ∧
    (∀ (ac : AuthService) (creds : UserCredentialsDTO),
      ac.signUp ⟨contextTimeout⟩ creds = Except.error deadlineExceeded →
      (AuthController.SignUp ac creds).status = 500 ∧
      (AuthController.SignUp ac creds).cookies = []) ∧
    (∀ (ac : AuthService) (creds : UserCredentialsDTO) (now : Nat),
      ac.signIn ⟨contextTimeout⟩ creds = Except.error deadlineExceeded →
      (AuthController.SignIn ac creds now).status = 500 ∧
      (AuthController.SignIn ac creds now).cookies = []) ∧
    (∀ (ac : AuthService) (tok : String) (now : Nat),
      ac.refresh ⟨contextTimeout⟩ (MapToUserRefreshTokenDTO tok) =
        Except.error deadlineExceeded →
      (AuthController.Refresh ac (some tok) now).status = 500 ∧
      (AuthController.Refresh ac (some tok) now).cookies = []) := by
  refine ⟨rfl, ?_, ?_, ?_, ?_, ?_, ?_⟩
  · intro ac ac' h creds
    simp [AuthController.SignUp, congrFun h creds]
  · intro ac ac' h creds now
    simp [AuthController.SignIn, congrFun h creds]
  · intro ac ac' h cookie now
    cases cookie with
    | none => rfl
    | some tok =>
      simp [AuthController.Refresh, congrFun h (MapToUserRefreshTokenDTO tok)]
  · intro ac creds h
    simp [AuthController.SignUp, h, deadlineExceeded]
  · intro ac creds now h
    simp [AuthController.SignIn, h, deadlineExceeded]
  · intro ac tok now h
    simp [AuthController.Refresh, h, deadlineExceeded]

/-- C8 witness: concrete run where every operation fails with the
cancellation error. -/
theorem C8_deadline_budget_witness :
    (AuthController.SignUp (svcErr deadlineExceeded)
        ⟨"a@b.com", "secret1"⟩).status = 500 ∧
    (AuthController.SignUp (svcErr deadlineExceeded)
        ⟨"a@b.com", "secret1"⟩).cookies = [] :=
  C8_deadline_budget.2.2.2.2.1 (svcErr deadlineExceeded)
    ⟨"a@b.com", "secret1"⟩ rfl

/-- C9 counterexample: the missing-refresh-cookie guard produces a failure
response (401) whose single body field is named `error`, not `message`, so
not every failure body is a single-field `message` object. -/
theorem C9_counterexample_guard_field_name :
    (AuthController.Refresh svcOkTokens none 0).status = 401 ∧
    (AuthController.Refresh svcOkTokens none 0).body.map JsonField.key =
      ["error"] := by
  exact ⟨rfl, rfl⟩

/-- C9 amended: every failure response from the three operations has a
single-field body holding a string; the field is named `message` on every
path except the missing-refresh-cookie guard, whose single field is named
`error` and holds the fixed text "Invalid refresh token". -/
theorem C9_failure_body_single_field :
    (∀ (ac : AuthService) (creds : UserCredentialsDTO),
      (AuthController.SignUp ac creds).status ≠ 200 →
      ∃ m, (AuthController.SignUp ac creds).body = [⟨"message", m⟩]) ∧
    (∀ (ac : AuthService) (creds : UserCredentialsDTO) (now : Nat),
      (AuthController.SignIn ac creds now).status ≠ 200 →
      ∃ m, (AuthController.SignIn ac creds now).body = [⟨"message", m⟩]) ∧
    (∀ (ac : AuthService) (tok : String) (now : Nat),
      (AuthController.Refresh ac (some tok) now).status ≠ 200 →
      ∃ m, (AuthController.Refresh ac (some tok) now).body =
        [⟨"message", m⟩]) ∧
    (∀ (ac : AuthService) (now : Nat),
      (AuthController.Refresh ac none now).body =
        [⟨"error", "Invalid refresh token"⟩]) := by
  refine ⟨?_, ?_, ?_, fun ac now => rfl⟩
  · intro ac creds _
    unfold AuthController.SignUp
    cases h : ac.signUp ⟨contextTimeout⟩ creds with
    | error e =>
      obtain ⟨k, m⟩ := e
      exact ⟨m, by cases k <;> simp [h]⟩
    | ok r =>
      exact ⟨"User successfully registered", by simp [h]⟩
  · intro ac creds now _
    unfold AuthController.SignIn
    cases h : ac.signIn ⟨contextTimeout⟩ creds with
    | error e =>
      obtain ⟨k, m⟩ := e
      exact ⟨m, by cases k <;> simp [h]⟩
    | ok tp =>
      exact ⟨"Logged in successfully", by simp [h]⟩
  · intro ac tok now _
    unfold AuthController.Refresh
    cases h : ac.refresh ⟨contextTimeout⟩ (MapToUserRefreshTokenDTO tok) with
    | error e =>
      obtain ⟨k, m⟩ := e
      exact ⟨m, by cases k <;> simp [h]⟩
    | ok tp =>
      exact ⟨"Tokens updated successfully", by simp [h]⟩

/-- C9 witness: concrete run of the first conjunct on an unclassified
SignUp failure. -/
theorem C9_failure_body_single_field_witness :
    ∃ m, (AuthController.SignUp (svcErr ⟨ErrKind.other, "db down"⟩)
      ⟨"a@b.com", "secret1"⟩).body = [⟨"message", m⟩] :=
  C9_failure_body_single_field.1 (svcErr ⟨ErrKind.other, "db down"⟩)
    ⟨"a@b.com", "secret1"⟩ (by decide)

/-- C10: on every successful SignIn or Refresh the first cookie's value is
the pair's `AccessToken` and the second's is the pair's `RefreshToken`;
the mapper wraps the cookie string unchanged; and the Refresh handler
depends on the capability only through its behaviour on exactly the
envelope `⟨cookie string⟩` at the deadline context — the envelope it
passes is the cookie value unmodified. -/
theorem C10_cookie_value_binding :
    (∀ (ac : AuthService) (creds : UserCredentialsDTO) (now : Nat)
        (tp : UserTokensDTO),
      ac.signIn ⟨contextTimeout⟩ creds = Except.ok tp →
      (AuthController.SignIn ac creds now).cookies.map HttpCookie.value =
        [tp.accessToken, tp.refreshToken]) ∧
    (∀ (ac : AuthService) (tok : String) (now : Nat) (tp : UserTokensDTO),
      ac.refresh ⟨contextTimeout⟩ (MapToUserRefreshTokenDTO tok) =
        Except.ok tp →
      (AuthController.Refresh ac (some tok) now).cookies.map
          HttpCookie.value = [tp.accessToken, tp.refreshToken]) ∧
    (∀ tok : String, MapToUserRefreshTokenDTO tok = ⟨tok⟩) ∧
    (∀ (ac ac' : AuthService) (tok : String) (now : Nat),
      ac.refresh ⟨contextTimeout⟩ ⟨tok⟩ = ac'.refresh ⟨contextTimeout⟩ ⟨tok⟩ →
      AuthController.Refresh ac (some tok) now =
        AuthController.Refresh ac' (some tok) now) := by
  refine ⟨?_, ?_, fun tok => rfl, ?_⟩
  · intro ac creds now tp h
    simp [AuthController.SignIn, h, SetCookies]
  · intro ac tok now tp h
    simp [AuthController.Refresh, h, SetCookies]
  · intro ac ac' tok now h
    simp [AuthController.Refresh, MapToUserRefreshTokenDTO, h]

/-- C10 witness: concrete successful SignIn and Refresh runs showing the
emitted cookie values are the capability's token pair. -/
theorem C10_cookie_value_binding_witness :
    (AuthController.SignIn svcOkTokens ⟨"a@b.com", "secret1"⟩ 0).cookies.map
        HttpCookie.value = ["acc1", "ref1"] ∧
    (AuthController.Refresh svcOkTokens (some "tok") 0).cookies.map
        HttpCookie.value = ["acc2", "ref2"] :=
  ⟨C10_cookie_value_binding.1 svcOkTokens ⟨"a@b.com", "secret1"⟩ 0
      ⟨"acc1", "ref1"⟩ rfl,
   C10_cookie_value_binding.2.1 svcOkTokens "tok" 0 ⟨"acc2", "ref2"⟩ rfl⟩

end Jwtgo
